import Mathlib

/-!
# gcpClient: the credentialed multi-service client and its two read operations

A shallow embedding of `main.go`.  The program is a thin shim over the Google
API client libraries, so the libraries are the environment of the model:

* every library entry point the program calls is a field of `Library`, a
  state-passing function over an arbitrary environment state `σ` (network,
  token cache, remote project database, ...);
* every such call is recorded in `World.calls`, in program order, so that
  statements about which calls are made, how often and with which arguments
  are statements about that list;
* Go result pairs `(value, error)` of the functions defined in `main.go` are
  kept as pairs of options (`none` is Go's `nil`).
-/

namespace GcpClient

/-! ## Values of the client libraries -/

/-- A Go `error` value, observed through the text of its `Error()` method. -/
structure GoError where
  Error : String
deriving DecidableEq, Repr

/-- Modelled from the spec: the library type `cloudresourcemanager.Service` is not
part of the repository; a sub-service handle is an authenticated client object
scoped to one provider API surface.  The program reads its `BasePath`; `client`
identifies the authenticated HTTP client behind it. -/
structure cloudresourcemanager.Service where
  BasePath : String
  client : Nat
deriving DecidableEq, Repr

/-- Modelled from the spec: the library type `iam.Service` (identity sub-service
handle), with the `BasePath` the program prints. -/
structure iam.Service where
  BasePath : String
  client : Nat
deriving DecidableEq, Repr

/-- Modelled from the spec: the library type `servicemanagement.APIService`
(service registry sub-service handle). -/
structure servicemanagement.APIService where
  BasePath : String
  client : Nat
deriving DecidableEq, Repr

/-- Modelled from the spec: the library type `cloudbilling.APIService` (billing
sub-service handle). -/
structure cloudbilling.APIService where
  BasePath : String
  client : Nat
deriving DecidableEq, Repr

/-- Modelled from the spec: the library type `dns.Service` (DNS sub-service
handle). -/
structure dns.Service where
  BasePath : String
  client : Nat
deriving DecidableEq, Repr

/-- Modelled from the spec: the library type `cloudresourcemanager.Project`; a
Project Record is a display name, a string identifier and a numeric project
number (an `int64` in the library; the program only prints it). -/
structure cloudresourcemanager.Project where
  Name : String
  ProjectId : String
  ProjectNumber : Int
deriving DecidableEq, Repr

/-- Modelled from the spec: the library type
`cloudresourcemanager.ListProjectsResponse`; one page of Project Records in
provider order, with the continuation token of the page. -/
structure cloudresourcemanager.ListProjectsResponse where
  Projects : List cloudresourcemanager.Project
  NextPageToken : String
deriving DecidableEq, Repr

/-! ## The environment: library calls and their record -/

/-- One call from the program into a client library. -/
inductive Call where
  | cloudresourcemanagerNewService (credentialsFile : String)
  | iamNewService (credentialsFile : String)
  | servicemanagementNewService (credentialsFile : String)
  | cloudbillingNewService (credentialsFile : String)
  | dnsNewService (credentialsFile : String)
  | projectsListDo (s : cloudresourcemanager.Service)
  | projectsGetDo (s : cloudresourcemanager.Service) (projectID : String)
deriving DecidableEq, Repr

/-- The behaviour of the client libraries.  Each entry point is an arbitrary
function of its arguments and of the environment state; by the libraries'
contract it yields either a value (with a nil error) or an error (without a
value).  The constructors take the path given to `option.WithCredentialsFile`.
`filepathJoin` is `filepath.Join`. -/
structure Library (σ : Type) where
  cloudresourcemanagerNewService : String → σ → Except GoError cloudresourcemanager.Service × σ
  iamNewService : String → σ → Except GoError iam.Service × σ
  servicemanagementNewService : String → σ → Except GoError servicemanagement.APIService × σ
  cloudbillingNewService : String → σ → Except GoError cloudbilling.APIService × σ
  dnsNewService : String → σ → Except GoError dns.Service × σ
  projectsListDo : cloudresourcemanager.Service → σ →
    Except GoError cloudresourcemanager.ListProjectsResponse × σ
  projectsGetDo : cloudresourcemanager.Service → String → σ →
    Except GoError cloudresourcemanager.Project × σ
  filepathJoin : String → String → String

/-- The environment state together with the record of the library calls made so
far, oldest first. -/
structure World (σ : Type) where
  state : σ
  calls : List Call

variable {σ : Type}

/-- The call `cloudresourcemanager.NewService(ctx, option.WithCredentialsFile(path))`. -/
def cloudresourcemanager.NewService (lib : Library σ) (path : String) (w : World σ) :
    Except GoError cloudresourcemanager.Service × World σ :=
  ((lib.cloudresourcemanagerNewService path w.state).1,
    ⟨(lib.cloudresourcemanagerNewService path w.state).2,
      w.calls ++ [Call.cloudresourcemanagerNewService path]⟩)

/-- The call `iam.NewService(ctx, option.WithCredentialsFile(path))`. -/
def iam.NewService (lib : Library σ) (path : String) (w : World σ) :
    Except GoError iam.Service × World σ :=
  ((lib.iamNewService path w.state).1,
    ⟨(lib.iamNewService path w.state).2, w.calls ++ [Call.iamNewService path]⟩)

/-- The call `servicemanagement.NewService(ctx, option.WithCredentialsFile(path))`. -/
def servicemanagement.NewService (lib : Library σ) (path : String) (w : World σ) :
    Except GoError servicemanagement.APIService × World σ :=
  ((lib.servicemanagementNewService path w.state).1,
    ⟨(lib.servicemanagementNewService path w.state).2,
      w.calls ++ [Call.servicemanagementNewService path]⟩)

/-- The call `cloudbilling.NewService(ctx, option.WithCredentialsFile(path))`. -/
def cloudbilling.NewService (lib : Library σ) (path : String) (w : World σ) :
    Except GoError cloudbilling.APIService × World σ :=
  ((lib.cloudbillingNewService path w.state).1,
    ⟨(lib.cloudbillingNewService path w.state).2,
      w.calls ++ [Call.cloudbillingNewService path]⟩)

/-- The call `dns.NewService(ctx, option.WithCredentialsFile(path))`. -/
def dns.NewService (lib : Library σ) (path : String) (w : World σ) :
    Except GoError dns.Service × World σ :=
  ((lib.dnsNewService path w.state).1,
    ⟨(lib.dnsNewService path w.state).2, w.calls ++ [Call.dnsNewService path]⟩)

/-- The call `s.Projects.List().Do()`. -/
def cloudresourcemanager.Service.ProjectsListDo (lib : Library σ)
    (s : cloudresourcemanager.Service) (w : World σ) :
    Except GoError cloudresourcemanager.ListProjectsResponse × World σ :=
  ((lib.projectsListDo s w.state).1,
    ⟨(lib.projectsListDo s w.state).2, w.calls ++ [Call.projectsListDo s]⟩)

/-- The call `s.Projects.Get(projectID).Do()`. -/
def cloudresourcemanager.Service.ProjectsGetDo (lib : Library σ)
    (s : cloudresourcemanager.Service) (projectID : String) (w : World σ) :
    Except GoError cloudresourcemanager.Project × World σ :=
  ((lib.projectsGetDo s projectID w.state).1,
    ⟨(lib.projectsGetDo s projectID w.state).2, w.calls ++ [Call.projectsGetDo s projectID]⟩)

/-- The call `fmt.Errorf(text + "%v", err)`: a new error whose text is `text`
followed by `err.Error()`. -/
def fmt.Errorf (text : String) (err : GoError) : GoError :=
  ⟨text ++ err.Error⟩

/-! ## The program -/

/-- The struct `Config` of `main.go`. -/
structure Config where
  projectID : String
  jsonpath : String
deriving DecidableEq, Repr

/-- The struct `GoogleCloudClient` of `main.go`: five sub-service handles and the
two caller-supplied strings. -/
structure GoogleCloudClient where
  Resource : cloudresourcemanager.Service
  IAM : iam.Service
  Service : servicemanagement.APIService
  Billing : cloudbilling.APIService
  DNS : dns.Service
  ProjectID : String
  JSONPath : String
deriving DecidableEq, Repr

/-- The function `NewGoogleCloudClient` of `main.go`.  The result is the Go pair
`(*GoogleCloudClient, error)` and the world after the calls made. -/
def NewGoogleCloudClient (lib : Library σ) (projectID : String) (jsonPath : String)
    (w : World σ) : (Option GoogleCloudClient × Option GoError) × World σ :=
  match cloudresourcemanager.NewService lib jsonPath w with
  | (.error err, w1) =>
    ((none, some (fmt.Errorf "Error with Cloud Resource Manager Service: " err)), w1)
  | (.ok cloudresourcemanagerService, w1) =>
  match iam.NewService lib jsonPath w1 with
  | (.error err, w2) => ((none, some (fmt.Errorf "Error with the IAM Service: " err)), w2)
  | (.ok iamService, w2) =>
  match servicemanagement.NewService lib jsonPath w2 with
  | (.error err, w3) =>
    ((none, some (fmt.Errorf "Error with the Service Management Service: " err)), w3)
  | (.ok servicemanagementService, w3) =>
  match cloudbilling.NewService lib jsonPath w3 with
  | (.error err, w4) =>
    ((none, some (fmt.Errorf "Error with the Cloud Billing Account: " err)), w4)
  | (.ok cloudbillingService, w4) =>
  match dns.NewService lib jsonPath w4 with
  | (.error err, w5) => ((none, some (fmt.Errorf "Error with the Cloud DNS: " err)), w5)
  | (.ok dnsService, w5) =>
    ((some
        { Resource := cloudresourcemanagerService
          IAM := iamService
          Service := servicemanagementService
          Billing := cloudbillingService
          DNS := dnsService
          ProjectID := projectID
          JSONPath := jsonPath },
      none), w5)

/-- The method `(*GoogleCloudClient).ListProjects` of `main.go`. -/
def GoogleCloudClient.ListProjects (lib : Library σ) (c : GoogleCloudClient) (w : World σ) :
    (Option cloudresourcemanager.ListProjectsResponse × Option GoError) × World σ :=
  match c.Resource.ProjectsListDo lib w with
  | (.error err, w1) => ((none, some err), w1)
  | (.ok projectsList, w1) => ((some projectsList, none), w1)

/-- The method `(*GoogleCloudClient).GetProject` of `main.go`. -/
def GoogleCloudClient.GetProject (lib : Library σ) (c : GoogleCloudClient) (projectID : String)
    (w : World σ) : (Option cloudresourcemanager.Project × Option GoError) × World σ :=
  match c.Resource.ProjectsGetDo lib projectID w with
  | (.error err, w1) => ((none, some err), w1)
  | (.ok project, w1) => ((some project, none), w1)

/-- What a finished run of the process leaves behind: the world, the text written
to standard output, the messages handed to `log.Fatal` (written to standard
error), and the exit status (0 after `main` returns, 1 after `log.Fatal`, 2 after
a run-time panic). -/
structure Run (σ : Type) where
  world : World σ
  stdout : String
  fatal : List String
  status : Nat

/-- The text `fmt.Println(s)` writes. -/
def fmt.Println (s : String) : String :=
  s ++ "\n"

/-- The text written by the `fmt.Printf` call in the loop of `main`, with format
`"Project Name: %s\tProjectID: %s\tProject Number: %d\r\n"`. -/
def printfProject (project : cloudresourcemanager.Project) : String :=
  "Project Name: " ++ project.Name ++ "\tProjectID: " ++ project.ProjectId ++
    "\tProject Number: " ++ toString project.ProjectNumber ++ "\r\n"

/-- The function `main` of `main.go`, from the point where `flag.Parse` has filled
`cfg`; `HOME` is the value of `os.Getenv("HOME")`. -/
def main (lib : Library σ) (cfg : Config) (HOME : String) (w : World σ) : Run σ :=
  let projectID := cfg.projectID
  let jsonPath := lib.filepathJoin HOME cfg.jsonpath
  let out0 := "Project ID: " ++ projectID ++ " jsonPath: " ++ jsonPath
  match NewGoogleCloudClient lib projectID jsonPath w with
  | ((_, some err), w1) => ⟨w1, out0, [err.Error], 1⟩
  | ((none, none), w1) => ⟨w1, out0, [], 2⟩
  | ((some gcpClient, none), w1) =>
    let out1 := out0 ++ fmt.Println gcpClient.Resource.BasePath
      ++ fmt.Println gcpClient.IAM.BasePath
      ++ fmt.Println gcpClient.Service.BasePath
      ++ fmt.Println gcpClient.Billing.BasePath
      ++ fmt.Println gcpClient.DNS.BasePath
    match gcpClient.ListProjects lib w1 with
    | ((_, some err), w2) => ⟨w2, out1, [err.Error], 1⟩
    | ((none, none), w2) => ⟨w2, out1, [], 2⟩
    | ((some resp, none), w2) =>
      let out2 := resp.Projects.foldl (fun out project => out ++ printfProject project) out1
      match gcpClient.GetProject lib projectID w2 with
      | ((_, some err), w3) => ⟨w3, out2, [err.Error], 1⟩
      | ((none, none), w3) => ⟨w3, out2, [], 2⟩
      | ((some resp1, none), w3) =>
        ⟨w3, out2 ++ fmt.Println (toString resp1.ProjectNumber), [], 0⟩

/-! ## A concrete environment -/

/-- A test environment: which constructors reject the key (numbered 1 to 5 in
construction order), whether the list call is refused, and the projects the
remote serves. -/
structure Scenario where
  rejects : Nat → Bool
  listError : Option GoError
  projects : List cloudresourcemanager.Project

/-- The library behaviour of a scenario.  The environment state counts the calls
served.  A rejected constructor reports the path it could not use; a lookup
succeeds exactly for the identifiers of the served projects. -/
def Scenario.library (sc : Scenario) : Library Nat where
  cloudresourcemanagerNewService path n :=
    (if sc.rejects 1 then .error ⟨"cannot read credentials file " ++ path⟩
      else .ok ⟨"https://cloudresourcemanager.googleapis.com/", 1⟩, n + 1)
  iamNewService path n :=
    (if sc.rejects 2 then .error ⟨"cannot read credentials file " ++ path⟩
      else .ok ⟨"https://iam.googleapis.com/", 2⟩, n + 1)
  servicemanagementNewService path n :=
    (if sc.rejects 3 then .error ⟨"cannot read credentials file " ++ path⟩
      else .ok ⟨"https://servicemanagement.googleapis.com/", 3⟩, n + 1)
  cloudbillingNewService path n :=
    (if sc.rejects 4 then .error ⟨"cannot read credentials file " ++ path⟩
      else .ok ⟨"https://cloudbilling.googleapis.com/", 4⟩, n + 1)
  dnsNewService path n :=
    (if sc.rejects 5 then .error ⟨"cannot read credentials file " ++ path⟩
      else .ok ⟨"https://dns.googleapis.com/dns/v1/projects/", 5⟩, n + 1)
  projectsListDo _ n :=
    (match sc.listError with
      | some e => .error e
      | none => .ok ⟨sc.projects, ""⟩, n + 1)
  projectsGetDo _ projectID n :=
    (match sc.projects.find? (fun p => p.ProjectId == projectID) with
      | some p => .ok p
      | none => .error ⟨"googleapi: Error 403: The caller does not have permission, forbidden"⟩,
      n + 1)
  filepathJoin dir file := dir ++ "/" ++ file

/-- The project of the end-to-end scenario. -/
def alpha : cloudresourcemanager.Project :=
  ⟨"Alpha", "alpha-123", 123456⟩

/-- A world in which no call has been made yet. -/
def World.start : World Nat :=
  ⟨0, []⟩

/-- The handles the scenario library hands out, as a client for `alpha-123`. -/
def alphaClient : GoogleCloudClient :=
  { Resource := ⟨"https://cloudresourcemanager.googleapis.com/", 1⟩
    IAM := ⟨"https://iam.googleapis.com/", 2⟩
    Service := ⟨"https://servicemanagement.googleapis.com/", 3⟩
    Billing := ⟨"https://cloudbilling.googleapis.com/", 4⟩
    DNS := ⟨"https://dns.googleapis.com/dns/v1/projects/", 5⟩
    ProjectID := "alpha-123"
    JSONPath := "/home/dev/key.json" }

/-- The scenario in which the credential file does not exist: every constructor
rejects the path. -/
def missingKey : Scenario :=
  ⟨fun _ => true, none, []⟩

/-- The scenario in which only the billing constructor (the fourth) fails. -/
def billingDown : Scenario :=
  ⟨fun k => k == 4, none, [alpha]⟩

/-- The scenario of the end-to-end test: a valid key that sees the project `alpha`. -/
def healthy : Scenario :=
  ⟨fun _ => false, none, [alpha]⟩

/-- The scenario of a valid key whose list call is refused. -/
def listRefused : Scenario :=
  ⟨fun _ => false, some ⟨"googleapi: Error 403: forbidden"⟩, [alpha]⟩

/-- The library of a remote whose lookup answers every identifier with status
success and an empty body, which the client library decodes to the record with empty
name, empty identifier and number 0; everything else is as in the healthy scenario. -/
def emptyReply : Library Nat :=
  { healthy.library with projectsGetDo := fun _ _ n => (.ok ⟨"", "", 0⟩, n + 1) }

/-- The scenario of a valid key that sees no project at all. -/
def noProjects : Scenario :=
  ⟨fun _ => false, none, []⟩

/-! ## Vocabulary of the statements -/

/-- Whether a call is one of the five sub-service constructors. -/
def Call.isNewService : Call → Bool
  | .projectsListDo _ => false
  | .projectsGetDo _ _ => false
  | _ => true

/-- The lines written for a collection of projects, one `printfProject` line per
project, in the collection's order. -/
def projectLines : List cloudresourcemanager.Project → String
  | [] => ""
  | project :: rest => printfProject project ++ projectLines rest

/-- The five API base paths of a client, one per line, in the order resource
manager, IAM, service management, billing, DNS. -/
def basePathLines (c : GoogleCloudClient) : String :=
  fmt.Println c.Resource.BasePath ++ (fmt.Println c.IAM.BasePath ++
    (fmt.Println c.Service.BasePath ++ (fmt.Println c.Billing.BasePath ++
      fmt.Println c.DNS.BasePath)))

/-- The standard output the specification describes for a successful run: the base
paths, then one line per enumerated project, then the project number of the
looked-up project, and nothing else. -/
def describedStdout (c : GoogleCloudClient)
    (resp : cloudresourcemanager.ListProjectsResponse)
    (looked : cloudresourcemanager.Project) : String :=
  basePathLines c ++ (projectLines resp.Projects ++
    fmt.Println (toString looked.ProjectNumber))

/-- The text `main` writes before it constructs the client: the two configuration
values, without a line break. -/
def configEcho (projectID jsonPath : String) : String :=
  "Project ID: " ++ projectID ++ " jsonPath: " ++ jsonPath

/-! ## Construction -/

section construction

variable (lib : Library σ) (projectID jsonPath : String) (w : World σ)

theorem newClient_resource_error {e : GoError} {w1 : World σ}
    (h1 : cloudresourcemanager.NewService lib jsonPath w = (.error e, w1)) :
    NewGoogleCloudClient lib projectID jsonPath w =
      ((none, some (fmt.Errorf "Error with Cloud Resource Manager Service: " e)), w1) := by
  simp [NewGoogleCloudClient, h1]

theorem newClient_iam_error {r : cloudresourcemanager.Service} {e : GoError} {w1 w2 : World σ}
    (h1 : cloudresourcemanager.NewService lib jsonPath w = (.ok r, w1))
    (h2 : iam.NewService lib jsonPath w1 = (.error e, w2)) :
    NewGoogleCloudClient lib projectID jsonPath w =
      ((none, some (fmt.Errorf "Error with the IAM Service: " e)), w2) := by
  simp [NewGoogleCloudClient, h1, h2]

theorem newClient_servicemanagement_error {r : cloudresourcemanager.Service} {i : iam.Service}
    {e : GoError} {w1 w2 w3 : World σ}
    (h1 : cloudresourcemanager.NewService lib jsonPath w = (.ok r, w1))
    (h2 : iam.NewService lib jsonPath w1 = (.ok i, w2))
    (h3 : servicemanagement.NewService lib jsonPath w2 = (.error e, w3)) :
    NewGoogleCloudClient lib projectID jsonPath w =
      ((none, some (fmt.Errorf "Error with the Service Management Service: " e)), w3) := by
  simp [NewGoogleCloudClient, h1, h2, h3]

theorem newClient_billing_error {r : cloudresourcemanager.Service} {i : iam.Service}
    {s : servicemanagement.APIService} {e : GoError} {w1 w2 w3 w4 : World σ}
    (h1 : cloudresourcemanager.NewService lib jsonPath w = (.ok r, w1))
    (h2 : iam.NewService lib jsonPath w1 = (.ok i, w2))
    (h3 : servicemanagement.NewService lib jsonPath w2 = (.ok s, w3))
    (h4 : cloudbilling.NewService lib jsonPath w3 = (.error e, w4)) :
    NewGoogleCloudClient lib projectID jsonPath w =
      ((none, some (fmt.Errorf "Error with the Cloud Billing Account: " e)), w4) := by
  simp [NewGoogleCloudClient, h1, h2, h3, h4]

theorem newClient_dns_error {r : cloudresourcemanager.Service} {i : iam.Service}
    {s : servicemanagement.APIService} {b : cloudbilling.APIService} {e : GoError}
    {w1 w2 w3 w4 w5 : World σ}
    (h1 : cloudresourcemanager.NewService lib jsonPath w = (.ok r, w1))
    (h2 : iam.NewService lib jsonPath w1 = (.ok i, w2))
    (h3 : servicemanagement.NewService lib jsonPath w2 = (.ok s, w3))
    (h4 : cloudbilling.NewService lib jsonPath w3 = (.ok b, w4))
    (h5 : dns.NewService lib jsonPath w4 = (.error e, w5)) :
    NewGoogleCloudClient lib projectID jsonPath w =
      ((none, some (fmt.Errorf "Error with the Cloud DNS: " e)), w5) := by
  simp [NewGoogleCloudClient, h1, h2, h3, h4, h5]

theorem newClient_all_ok {r : cloudresourcemanager.Service} {i : iam.Service}
    {s : servicemanagement.APIService} {b : cloudbilling.APIService} {d : dns.Service}
    {w1 w2 w3 w4 w5 : World σ}
    (h1 : cloudresourcemanager.NewService lib jsonPath w = (.ok r, w1))
    (h2 : iam.NewService lib jsonPath w1 = (.ok i, w2))
    (h3 : servicemanagement.NewService lib jsonPath w2 = (.ok s, w3))
    (h4 : cloudbilling.NewService lib jsonPath w3 = (.ok b, w4))
    (h5 : dns.NewService lib jsonPath w4 = (.ok d, w5)) :
    NewGoogleCloudClient lib projectID jsonPath w =
      ((some ⟨r, i, s, b, d, projectID, jsonPath⟩, none), w5) := by
  simp [NewGoogleCloudClient, h1, h2, h3, h4, h5]

theorem resource_calls {x : Except GoError cloudresourcemanager.Service} {w1 : World σ}
    (h : cloudresourcemanager.NewService lib jsonPath w = (x, w1)) :
    w1.calls = w.calls ++ [Call.cloudresourcemanagerNewService jsonPath] := by
  simp only [cloudresourcemanager.NewService, Prod.mk.injEq] at h
  rw [← h.2]

theorem iam_calls {x : Except GoError iam.Service} {w1 : World σ}
    (h : iam.NewService lib jsonPath w = (x, w1)) :
    w1.calls = w.calls ++ [Call.iamNewService jsonPath] := by
  simp only [iam.NewService, Prod.mk.injEq] at h
  rw [← h.2]

theorem servicemanagement_calls {x : Except GoError servicemanagement.APIService} {w1 : World σ}
    (h : servicemanagement.NewService lib jsonPath w = (x, w1)) :
    w1.calls = w.calls ++ [Call.servicemanagementNewService jsonPath] := by
  simp only [servicemanagement.NewService, Prod.mk.injEq] at h
  rw [← h.2]

theorem billing_calls {x : Except GoError cloudbilling.APIService} {w1 : World σ}
    (h : cloudbilling.NewService lib jsonPath w = (x, w1)) :
    w1.calls = w.calls ++ [Call.cloudbillingNewService jsonPath] := by
  simp only [cloudbilling.NewService, Prod.mk.injEq] at h
  rw [← h.2]

theorem dns_calls {x : Except GoError dns.Service} {w1 : World σ}
    (h : dns.NewService lib jsonPath w = (x, w1)) :
    w1.calls = w.calls ++ [Call.dnsNewService jsonPath] := by
  simp only [dns.NewService, Prod.mk.injEq] at h
  rw [← h.2]

theorem texts_diverge (p q : String)
    (h : ∃ n, p.data.take n ≠ q.data.take n ∧ n ≤ p.data.length ∧ n ≤ q.data.length)
    (x y : String) : p ++ x ≠ q ++ y := by
  obtain ⟨n, hne, hp, hq⟩ := h
  intro heq
  apply hne
  have := congrArg (fun s => s.data.take n) heq
  simp only [String.data_append] at this
  rwa [List.take_append_of_le_length hp, List.take_append_of_le_length hq] at this

theorem service_texts_pairwise_distinct :
    List.Pairwise (fun p q : String => ∀ x y : String, p ++ x ≠ q ++ y)
      ["Error with Cloud Resource Manager Service: ", "Error with the IAM Service: ",
        "Error with the Service Management Service: ", "Error with the Cloud Billing Account: ",
        "Error with the Cloud DNS: "] := by
  simp only [List.pairwise_cons, List.mem_cons, List.mem_singleton, forall_eq_or_imp, forall_eq,
    List.not_mem_nil, false_implies, implies_true, and_true, List.Pairwise.nil]
  refine ⟨⟨?_, ?_, ?_, ?_⟩, ⟨?_, ?_, ?_⟩, ⟨?_, ?_⟩, ?_⟩ <;>
    exact texts_diverge _ _ ⟨22, by decide, by decide, by decide⟩

/-- C1: for every project identifier, credential path and library behaviour,
`NewGoogleCloudClient` returns either a nil error with a client whose five handles
are the ones the five constructors returned (each called with the credential path,
one after the other), or a non-nil error with a nil client; a client together with
an error, or a nil client with a nil error, is never returned. -/
theorem newGoogleCloudClient_all_or_nothing :
    (∃ r w1 i w2 s w3 b w4 d w5,
        cloudresourcemanager.NewService lib jsonPath w = (.ok r, w1) ∧
        iam.NewService lib jsonPath w1 = (.ok i, w2) ∧
        servicemanagement.NewService lib jsonPath w2 = (.ok s, w3) ∧
        cloudbilling.NewService lib jsonPath w3 = (.ok b, w4) ∧
        dns.NewService lib jsonPath w4 = (.ok d, w5) ∧
        (NewGoogleCloudClient lib projectID jsonPath w).1 =
          (some
            { Resource := r, IAM := i, Service := s, Billing := b, DNS := d,
              ProjectID := projectID, JSONPath := jsonPath },
            none)) ∨
      (∃ e, (NewGoogleCloudClient lib projectID jsonPath w).1 = (none, some e)) := by
  rcases h1 : cloudresourcemanager.NewService lib jsonPath w with ⟨e | r, w1⟩
  · exact Or.inr ⟨_, by rw [newClient_resource_error lib projectID jsonPath w h1]⟩
  rcases h2 : iam.NewService lib jsonPath w1 with ⟨e | i, w2⟩
  · exact Or.inr ⟨_, by rw [newClient_iam_error lib projectID jsonPath w h1 h2]⟩
  rcases h3 : servicemanagement.NewService lib jsonPath w2 with ⟨e | s, w3⟩
  · exact Or.inr ⟨_, by rw [newClient_servicemanagement_error lib projectID jsonPath w h1 h2 h3]⟩
  rcases h4 : cloudbilling.NewService lib jsonPath w3 with ⟨e | b, w4⟩
  · exact Or.inr ⟨_, by rw [newClient_billing_error lib projectID jsonPath w h1 h2 h3 h4]⟩
  rcases h5 : dns.NewService lib jsonPath w4 with ⟨e | d, w5⟩
  · exact Or.inr ⟨_, by rw [newClient_dns_error lib projectID jsonPath w h1 h2 h3 h4 h5]⟩
  exact Or.inl ⟨r, w1, i, w2, s, w3, b, w4, d, w5, rfl, h2, h3, h4, h5,
    by rw [newClient_all_ok lib projectID jsonPath w h1 h2 h3 h4 h5]⟩

/-- C2: when a constructor fails, the error returned by `NewGoogleCloudClient` is the
text of the first failing sub-service (in the order resource manager, IAM, service
management, billing, DNS) followed by the text of the underlying error, no client is
returned, and the calls made are exactly the constructors up to and including the
failing one, each with the credential path; when the resource-manager constructor
fails it is the only call made.  No text can begin with the texts of two different
sub-services, so the error text tells which one failed. -/
theorem newGoogleCloudClient_first_failure :
    (∀ e w1, cloudresourcemanager.NewService lib jsonPath w = (.error e, w1) →
        NewGoogleCloudClient lib projectID jsonPath w =
          ((none, some ⟨"Error with Cloud Resource Manager Service: " ++ e.Error⟩), w1) ∧
        w1.calls = w.calls ++ [Call.cloudresourcemanagerNewService jsonPath]) ∧
    (∀ r w1 e w2, cloudresourcemanager.NewService lib jsonPath w = (.ok r, w1) →
        iam.NewService lib jsonPath w1 = (.error e, w2) →
        NewGoogleCloudClient lib projectID jsonPath w =
          ((none, some ⟨"Error with the IAM Service: " ++ e.Error⟩), w2) ∧
        w2.calls = w.calls ++
          [Call.cloudresourcemanagerNewService jsonPath, Call.iamNewService jsonPath]) ∧
    (∀ r w1 i w2 e w3, cloudresourcemanager.NewService lib jsonPath w = (.ok r, w1) →
        iam.NewService lib jsonPath w1 = (.ok i, w2) →
        servicemanagement.NewService lib jsonPath w2 = (.error e, w3) →
        NewGoogleCloudClient lib projectID jsonPath w =
          ((none, some ⟨"Error with the Service Management Service: " ++ e.Error⟩), w3) ∧
        w3.calls = w.calls ++
          [Call.cloudresourcemanagerNewService jsonPath, Call.iamNewService jsonPath,
            Call.servicemanagementNewService jsonPath]) ∧
    (∀ r w1 i w2 s w3 e w4, cloudresourcemanager.NewService lib jsonPath w = (.ok r, w1) →
        iam.NewService lib jsonPath w1 = (.ok i, w2) →
        servicemanagement.NewService lib jsonPath w2 = (.ok s, w3) →
        cloudbilling.NewService lib jsonPath w3 = (.error e, w4) →
        NewGoogleCloudClient lib projectID jsonPath w =
          ((none, some ⟨"Error with the Cloud Billing Account: " ++ e.Error⟩), w4) ∧
        w4.calls = w.calls ++
          [Call.cloudresourcemanagerNewService jsonPath, Call.iamNewService jsonPath,
            Call.servicemanagementNewService jsonPath, Call.cloudbillingNewService jsonPath]) ∧
    (∀ r w1 i w2 s w3 b w4 e w5, cloudresourcemanager.NewService lib jsonPath w = (.ok r, w1) →
        iam.NewService lib jsonPath w1 = (.ok i, w2) →
        servicemanagement.NewService lib jsonPath w2 = (.ok s, w3) →
        cloudbilling.NewService lib jsonPath w3 = (.ok b, w4) →
        dns.NewService lib jsonPath w4 = (.error e, w5) →
        NewGoogleCloudClient lib projectID jsonPath w =
          ((none, some ⟨"Error with the Cloud DNS: " ++ e.Error⟩), w5) ∧
        w5.calls = w.calls ++
          [Call.cloudresourcemanagerNewService jsonPath, Call.iamNewService jsonPath,
            Call.servicemanagementNewService jsonPath, Call.cloudbillingNewService jsonPath,
            Call.dnsNewService jsonPath]) ∧
    List.Pairwise (fun p q : String => ∀ x y : String, p ++ x ≠ q ++ y)
      ["Error with Cloud Resource Manager Service: ", "Error with the IAM Service: ",
        "Error with the Service Management Service: ", "Error with the Cloud Billing Account: ",
        "Error with the Cloud DNS: "] := by
  refine ⟨?_, ?_, ?_, ?_, ?_, service_texts_pairwise_distinct⟩
  · intro e w1 h1
    exact ⟨newClient_resource_error lib projectID jsonPath w h1, resource_calls lib jsonPath w h1⟩
  · intro r w1 e w2 h1 h2
    refine ⟨newClient_iam_error lib projectID jsonPath w h1 h2, ?_⟩
    rw [iam_calls lib jsonPath w1 h2, resource_calls lib jsonPath w h1]
    simp
  · intro r w1 i w2 e w3 h1 h2 h3
    refine ⟨newClient_servicemanagement_error lib projectID jsonPath w h1 h2 h3, ?_⟩
    rw [servicemanagement_calls lib jsonPath w2 h3, iam_calls lib jsonPath w1 h2,
      resource_calls lib jsonPath w h1]
    simp
  · intro r w1 i w2 s w3 e w4 h1 h2 h3 h4
    refine ⟨newClient_billing_error lib projectID jsonPath w h1 h2 h3 h4, ?_⟩
    rw [billing_calls lib jsonPath w3 h4, servicemanagement_calls lib jsonPath w2 h3,
      iam_calls lib jsonPath w1 h2, resource_calls lib jsonPath w h1]
    simp
  · intro r w1 i w2 s w3 b w4 e w5 h1 h2 h3 h4 h5
    refine ⟨newClient_dns_error lib projectID jsonPath w h1 h2 h3 h4 h5, ?_⟩
    rw [dns_calls lib jsonPath w4 h5, billing_calls lib jsonPath w3 h4,
      servicemanagement_calls lib jsonPath w2 h3, iam_calls lib jsonPath w1 h2,
      resource_calls lib jsonPath w h1]
    simp

/-- C3: when all five constructors succeed, the calls `NewGoogleCloudClient` makes are
exactly the five constructors, once each, in the order resource manager, IAM,
service management, billing, DNS, every one with the `jsonPath` argument, and the
returned client carries the two arguments unchanged in `ProjectID` and `JSONPath`. -/
theorem newGoogleCloudClient_calls_in_order
    (r : cloudresourcemanager.Service) (i : iam.Service) (s : servicemanagement.APIService)
    (b : cloudbilling.APIService) (d : dns.Service) (w1 w2 w3 w4 w5 : World σ)
    (h1 : cloudresourcemanager.NewService lib jsonPath w = (.ok r, w1))
    (h2 : iam.NewService lib jsonPath w1 = (.ok i, w2))
    (h3 : servicemanagement.NewService lib jsonPath w2 = (.ok s, w3))
    (h4 : cloudbilling.NewService lib jsonPath w3 = (.ok b, w4))
    (h5 : dns.NewService lib jsonPath w4 = (.ok d, w5)) :
    (NewGoogleCloudClient lib projectID jsonPath w).2.calls = w.calls ++
        [Call.cloudresourcemanagerNewService jsonPath, Call.iamNewService jsonPath,
          Call.servicemanagementNewService jsonPath, Call.cloudbillingNewService jsonPath,
          Call.dnsNewService jsonPath] ∧
      (NewGoogleCloudClient lib projectID jsonPath w).2 = w5 ∧
      ∃ c, (NewGoogleCloudClient lib projectID jsonPath w).1 = (some c, none) ∧
        c.ProjectID = projectID ∧ c.JSONPath = jsonPath := by
  rw [newClient_all_ok lib projectID jsonPath w h1 h2 h3 h4 h5]
  refine ⟨?_, rfl, _, rfl, rfl, rfl⟩
  show w5.calls = _
  rw [dns_calls lib jsonPath w4 h5, billing_calls lib jsonPath w3 h4,
    servicemanagement_calls lib jsonPath w2 h3, iam_calls lib jsonPath w1 h2,
    resource_calls lib jsonPath w h1]
  simp

/-- In the scenario of the missing key the first constructor fails, and the error
and the single call are as `newGoogleCloudClient_first_failure` says; in the
scenario of the failing billing constructor four calls are made. -/
theorem newGoogleCloudClient_first_failure_witness :
    (cloudresourcemanager.NewService missingKey.library "/home/dev/nokey.json" World.start =
        (.error ⟨"cannot read credentials file /home/dev/nokey.json"⟩,
          ⟨1, [Call.cloudresourcemanagerNewService "/home/dev/nokey.json"]⟩) ∧
      NewGoogleCloudClient missingKey.library "alpha-123" "/home/dev/nokey.json" World.start =
        ((none, some ⟨"Error with Cloud Resource Manager Service: " ++
            "cannot read credentials file /home/dev/nokey.json"⟩),
          ⟨1, [Call.cloudresourcemanagerNewService "/home/dev/nokey.json"]⟩)) ∧
      (NewGoogleCloudClient billingDown.library "alpha-123" "/home/dev/key.json" World.start).1 =
        (none, some ⟨"Error with the Cloud Billing Account: " ++
            "cannot read credentials file /home/dev/key.json"⟩) :=
  ⟨⟨rfl,
    ((newGoogleCloudClient_first_failure missingKey.library "alpha-123" "/home/dev/nokey.json"
      World.start).1 _ _ rfl).1⟩,
    congrArg Prod.fst
      ((newGoogleCloudClient_first_failure billingDown.library "alpha-123" "/home/dev/key.json"
        World.start).2.2.2.1
        ⟨"https://cloudresourcemanager.googleapis.com/", 1⟩ ⟨1, _⟩
        ⟨"https://iam.googleapis.com/", 2⟩ ⟨2, _⟩
        ⟨"https://servicemanagement.googleapis.com/", 3⟩ ⟨3, _⟩
        ⟨"cannot read credentials file /home/dev/key.json"⟩ ⟨4, _⟩ rfl rfl rfl rfl).1⟩

/-- In the healthy scenario all five constructors succeed, and the calls and the
client are as `newGoogleCloudClient_calls_in_order` says. -/
theorem newGoogleCloudClient_calls_in_order_witness :
    (NewGoogleCloudClient healthy.library "alpha-123" "/home/dev/key.json" World.start).2.calls =
        [Call.cloudresourcemanagerNewService "/home/dev/key.json",
          Call.iamNewService "/home/dev/key.json",
          Call.servicemanagementNewService "/home/dev/key.json",
          Call.cloudbillingNewService "/home/dev/key.json",
          Call.dnsNewService "/home/dev/key.json"] ∧
      (NewGoogleCloudClient healthy.library "alpha-123" "/home/dev/key.json" World.start).1 =
        (some alphaClient, none) :=
  ⟨(newGoogleCloudClient_calls_in_order healthy.library "alpha-123" "/home/dev/key.json"
      World.start
      ⟨"https://cloudresourcemanager.googleapis.com/", 1⟩ ⟨"https://iam.googleapis.com/", 2⟩
      ⟨"https://servicemanagement.googleapis.com/", 3⟩ ⟨"https://cloudbilling.googleapis.com/", 4⟩
      ⟨"https://dns.googleapis.com/dns/v1/projects/", 5⟩
      ⟨1, _⟩ ⟨2, _⟩ ⟨3, _⟩ ⟨4, _⟩ ⟨5, _⟩ rfl rfl rfl rfl rfl).1,
    rfl⟩

end construction

/-! ## The two read operations -/

section operations

variable (lib : Library σ) (c : GoogleCloudClient) (w : World σ)

theorem listProjects_eq :
    c.ListProjects lib w =
      ((match (lib.projectsListDo c.Resource w.state).1 with
        | .error err => (none, some err)
        | .ok projectsList => (some projectsList, none)),
        ⟨(lib.projectsListDo c.Resource w.state).2,
          w.calls ++ [Call.projectsListDo c.Resource]⟩) := by
  unfold GoogleCloudClient.ListProjects cloudresourcemanager.Service.ProjectsListDo
  cases (lib.projectsListDo c.Resource w.state).1 <;> rfl

theorem getProject_eq (projectID : String) :
    c.GetProject lib projectID w =
      ((match (lib.projectsGetDo c.Resource projectID w.state).1 with
        | .error err => (none, some err)
        | .ok project => (some project, none)),
        ⟨(lib.projectsGetDo c.Resource projectID w.state).2,
          w.calls ++ [Call.projectsGetDo c.Resource projectID]⟩) := by
  unfold GoogleCloudClient.GetProject cloudresourcemanager.Service.ProjectsGetDo
  cases (lib.projectsGetDo c.Resource projectID w.state).1 <;> rfl

/-- C4: for every client and every behaviour of the remote list call, `ListProjects`
makes exactly one library call, the list call on its Resource handle, and leaves the
environment as that one call left it; when the call fails with `e` it returns a nil
response and exactly `e`; when it succeeds with `r` (whatever its continuation
token) it returns `r` and a nil error. -/
theorem listProjects_single_call_verbatim :
    (c.ListProjects lib w).2.calls = w.calls ++ [Call.projectsListDo c.Resource] ∧
      (c.ListProjects lib w).2.state = (lib.projectsListDo c.Resource w.state).2 ∧
      (∀ e, (lib.projectsListDo c.Resource w.state).1 = .error e →
        (c.ListProjects lib w).1 = (none, some e)) ∧
      (∀ r, (lib.projectsListDo c.Resource w.state).1 = .ok r →
        (c.ListProjects lib w).1 = (some r, none)) := by
  rw [listProjects_eq]
  refine ⟨rfl, rfl, ?_, ?_⟩
  · intro e h
    simp only [h]
  · intro r h
    simp only [h]

/-- C5: when the remote list call succeeds and reports no project, `ListProjects`
returns a nil error and that response, whose project collection has length 0. -/
theorem listProjects_empty_is_not_an_error
    (r : cloudresourcemanager.ListProjectsResponse)
    (h : (lib.projectsListDo c.Resource w.state).1 = .ok r) (h0 : r.Projects = []) :
    (c.ListProjects lib w).1.2 = none ∧
      ∃ resp, (c.ListProjects lib w).1.1 = some resp ∧ resp = r ∧ resp.Projects.length = 0 := by
  rw [listProjects_eq]
  exact ⟨by simp only [h], r, by simp only [h], rfl, by simp [h0]⟩

/-- C6 as amended: `GetProject` makes the remote lookup of its argument; when that
lookup fails with `e` (an identifier the credential cannot access) it returns a nil
record and exactly `e`, so that no record, zero-valued or other, comes with a nil
error; whenever it returns a nil error it returns a record, and that record is the
one the remote lookup of that identifier produced; it returns a zero-valued record
with a nil error only when the remote lookup itself answered with that record. -/
theorem getProject_error_verbatim (projectID : String) :
    (c.GetProject lib projectID w).2.calls = w.calls ++ [Call.projectsGetDo c.Resource projectID] ∧
      (∀ e, (lib.projectsGetDo c.Resource projectID w.state).1 = .error e →
        (c.GetProject lib projectID w).1 = (none, some e) ∧
        ∀ p, (c.GetProject lib projectID w).1 ≠ (some p, none)) ∧
      ((c.GetProject lib projectID w).1.2 = none →
        ∃ p, (lib.projectsGetDo c.Resource projectID w.state).1 = .ok p ∧
          (c.GetProject lib projectID w).1.1 = some p) ∧
      ((lib.projectsGetDo c.Resource projectID w.state).1 ≠ .ok ⟨"", "", 0⟩ →
        (c.GetProject lib projectID w).1 ≠ (some ⟨"", "", 0⟩, none)) := by
  rw [getProject_eq]
  refine ⟨rfl, ?_, ?_, ?_⟩
  · intro e h
    exact ⟨by simp only [h], fun p hp => by simp [h] at hp⟩
  · cases (lib.projectsGetDo c.Resource projectID w.state).1 with
    | error e => intro h; simp at h
    | ok p => intro _; exact ⟨p, rfl, rfl⟩
  · cases (lib.projectsGetDo c.Resource projectID w.state).1 with
    | error e => intro _ h; simp at h
    | ok p => intro hne h; simp at h; exact hne (by rw [h])

/-- C10: two clients with the same Resource handle, whatever their other four
handles and their `ProjectID` and `JSONPath`, give the same result (and make the same
call) in `ListProjects` and, for every identifier, in `GetProject`; the lookup
`GetProject` makes is that of its argument, not of the stored `ProjectID`. -/
theorem operations_use_resource_handle_only (c1 c2 : GoogleCloudClient)
    (h : c1.Resource = c2.Resource) (projectID : String) :
    c1.ListProjects lib w = c2.ListProjects lib w ∧
      c1.GetProject lib projectID w = c2.GetProject lib projectID w ∧
      (c1.GetProject lib projectID w).2.calls =
        w.calls ++ [Call.projectsGetDo c1.Resource projectID] := by
  refine ⟨?_, ?_, ?_⟩
  · rw [listProjects_eq, listProjects_eq, h]
  · rw [getProject_eq, getProject_eq, h]
  · rw [getProject_eq]

/-- C7: when construction succeeds with client `c` and the remote serves exactly the
project Alpha (`alpha-123`, number 123456) to that client, then in every world
reached afterwards `ListProjects` returns a nil error and a collection that is
exactly that one record, and `GetProject "alpha-123"` returns a nil error and that
record. -/
theorem end_to_end_alpha (projectID jsonPath : String) (w1 : World σ)
    (hnew : NewGoogleCloudClient lib projectID jsonPath w = ((some c, none), w1))
    (hlist : ∀ st, ∃ r, (lib.projectsListDo c.Resource st).1 = .ok r ∧
      r.Projects = [⟨"Alpha", "alpha-123", 123456⟩])
    (hget : ∀ st, (lib.projectsGetDo c.Resource "alpha-123" st).1 =
      .ok ⟨"Alpha", "alpha-123", 123456⟩) :
    (NewGoogleCloudClient lib projectID jsonPath w).1 = (some c, none) ∧
      ∀ v : World σ,
        (∃ resp, (c.ListProjects lib v).1 = (some resp, none) ∧
          resp.Projects = [⟨"Alpha", "alpha-123", 123456⟩]) ∧
        (c.GetProject lib "alpha-123" v).1 = (some ⟨"Alpha", "alpha-123", 123456⟩, none) := by
  refine ⟨by rw [hnew], fun v => ⟨?_, ?_⟩⟩
  · obtain ⟨r, hr, hp⟩ := hlist v.state
    exact ⟨r, by rw [listProjects_eq]; simp only [hr], hp⟩
  · rw [getProject_eq]
    simp only [hget]

/-- A refused list call is returned as it is, and a served page is returned as it
is, as `listProjects_single_call_verbatim` says. -/
theorem listProjects_single_call_verbatim_witness :
    (alphaClient.ListProjects listRefused.library ⟨5, []⟩).1 =
        (none, some ⟨"googleapi: Error 403: forbidden"⟩) ∧
      (alphaClient.ListProjects healthy.library ⟨5, []⟩).1 = (some ⟨[alpha], ""⟩, none) :=
  ⟨(listProjects_single_call_verbatim listRefused.library alphaClient ⟨5, []⟩).2.2.1 _ rfl,
    (listProjects_single_call_verbatim healthy.library alphaClient ⟨5, []⟩).2.2.2 _ rfl⟩

/-- For a key that sees no project the list call succeeds with an empty page, and
`listProjects_empty_is_not_an_error` applies. -/
theorem listProjects_empty_is_not_an_error_witness :
    (noProjects.library.projectsListDo alphaClient.Resource 5).1 = .ok ⟨[], ""⟩ ∧
      (alphaClient.ListProjects noProjects.library ⟨5, []⟩).1.2 = none ∧
      ∃ resp, (alphaClient.ListProjects noProjects.library ⟨5, []⟩).1.1 = some resp ∧
        resp = ⟨[], ""⟩ ∧ resp.Projects.length = 0 :=
  ⟨rfl, listProjects_empty_is_not_an_error noProjects.library alphaClient ⟨5, []⟩ ⟨[], ""⟩ rfl rfl⟩

/-- The lookup of an identifier the key cannot access fails, and
`getProject_error_verbatim` gives the error back unchanged; the lookup of `alpha-123`
answers with a record that is not zero-valued, and no zero-valued record is
returned. -/
theorem getProject_error_verbatim_witness :
    ((healthy.library.projectsGetDo alphaClient.Resource "beta-456" 6).1 =
        .error ⟨"googleapi: Error 403: The caller does not have permission, forbidden"⟩ ∧
      (alphaClient.GetProject healthy.library "beta-456" ⟨6, []⟩).1 =
        (none, some ⟨"googleapi: Error 403: The caller does not have permission, forbidden"⟩)) ∧
      ((healthy.library.projectsGetDo alphaClient.Resource "alpha-123" 6).1 ≠
          .ok ⟨"", "", 0⟩ ∧
        (alphaClient.GetProject healthy.library "alpha-123" ⟨6, []⟩).1 ≠
          (some ⟨"", "", 0⟩, none)) :=
  ⟨⟨rfl, ((getProject_error_verbatim healthy.library alphaClient ⟨6, []⟩ "beta-456").2.1 _ rfl).1⟩,
    fun h => absurd (Except.ok.inj h) (by decide),
    (getProject_error_verbatim healthy.library alphaClient ⟨6, []⟩ "alpha-123").2.2.2
      (fun h => absurd (Except.ok.inj h) (by decide))⟩

/-- C6 as stated fails: when the remote lookup of `alpha-123` answers with the
zero-valued record (empty name, empty identifier, number 0) and no error,
`GetProject` hands that record on with a nil error, after the one lookup call. -/
theorem getProject_zero_record_with_nil_error :
    (emptyReply.projectsGetDo alphaClient.Resource "alpha-123" 6).1 = .ok ⟨"", "", 0⟩ ∧
      alphaClient.GetProject emptyReply "alpha-123" ⟨6, []⟩ =
        ((some ⟨"", "", 0⟩, none),
          ⟨7, [Call.projectsGetDo alphaClient.Resource "alpha-123"]⟩) :=
  ⟨rfl, rfl⟩

/-- Two clients that share only the Resource handle, at which
`operations_use_resource_handle_only` applies. -/
theorem operations_use_resource_handle_only_witness :
    alphaClient.Resource =
        ({ alphaClient with
            IAM := ⟨"", 0⟩, Service := ⟨"", 0⟩, Billing := ⟨"", 0⟩, DNS := ⟨"", 0⟩,
            ProjectID := "beta-456", JSONPath := "" } : GoogleCloudClient).Resource ∧
      alphaClient.GetProject healthy.library "alpha-123" ⟨6, []⟩ =
        ({ alphaClient with
            IAM := ⟨"", 0⟩, Service := ⟨"", 0⟩, Billing := ⟨"", 0⟩, DNS := ⟨"", 0⟩,
            ProjectID := "beta-456", JSONPath := "" } : GoogleCloudClient).GetProject
          healthy.library "alpha-123" ⟨6, []⟩ :=
  ⟨rfl, (operations_use_resource_handle_only healthy.library ⟨6, []⟩ alphaClient _ rfl
    "alpha-123").2.1⟩

/-- The healthy scenario satisfies the hypotheses of `end_to_end_alpha`. -/
theorem end_to_end_alpha_witness :
    NewGoogleCloudClient healthy.library "alpha-123" "/home/dev/key.json" World.start =
        ((some alphaClient, none),
          ⟨5, [Call.cloudresourcemanagerNewService "/home/dev/key.json",
            Call.iamNewService "/home/dev/key.json",
            Call.servicemanagementNewService "/home/dev/key.json",
            Call.cloudbillingNewService "/home/dev/key.json",
            Call.dnsNewService "/home/dev/key.json"]⟩) ∧
      (alphaClient.GetProject healthy.library "alpha-123"
          (alphaClient.ListProjects healthy.library
            ⟨5, [Call.cloudresourcemanagerNewService "/home/dev/key.json",
              Call.iamNewService "/home/dev/key.json",
              Call.servicemanagementNewService "/home/dev/key.json",
              Call.cloudbillingNewService "/home/dev/key.json",
              Call.dnsNewService "/home/dev/key.json"]⟩).2).1 =
        (some ⟨"Alpha", "alpha-123", 123456⟩, none) :=
  ⟨rfl, ((end_to_end_alpha healthy.library alphaClient World.start "alpha-123"
    "/home/dev/key.json" _ rfl (fun _ => ⟨⟨[alpha], ""⟩, rfl, rfl⟩) (fun _ => rfl)).2 _).2⟩

end operations

/-! ## The run of `main` -/

section program

variable (lib : Library σ) (cfg : Config) (HOME : String) (w : World σ)

theorem foldl_printfProject (projects : List cloudresourcemanager.Project) (out : String) :
    projects.foldl (fun out project => out ++ printfProject project) out =
      out ++ projectLines projects := by
  induction projects generalizing out with
  | nil => simp [projectLines]
  | cons project rest ih => simp [projectLines, ih, String.append_assoc]

theorem newClient_calls_are_constructors (projectID jsonPath : String) :
    ∃ added, (NewGoogleCloudClient lib projectID jsonPath w).2.calls = w.calls ++ added ∧
      ∀ k ∈ added, k.isNewService = true := by
  rcases h1 : cloudresourcemanager.NewService lib jsonPath w with ⟨e | r, w1⟩
  · refine ⟨[Call.cloudresourcemanagerNewService jsonPath], ?_, by simp [Call.isNewService]⟩
    rw [newClient_resource_error lib projectID jsonPath w h1]
    exact resource_calls lib jsonPath w h1
  rcases h2 : iam.NewService lib jsonPath w1 with ⟨e | i, w2⟩
  · refine ⟨[Call.cloudresourcemanagerNewService jsonPath, Call.iamNewService jsonPath], ?_,
      by simp [Call.isNewService]⟩
    rw [newClient_iam_error lib projectID jsonPath w h1 h2]
    show w2.calls = _
    rw [iam_calls lib jsonPath w1 h2, resource_calls lib jsonPath w h1]
    simp
  rcases h3 : servicemanagement.NewService lib jsonPath w2 with ⟨e | s, w3⟩
  · refine ⟨[Call.cloudresourcemanagerNewService jsonPath, Call.iamNewService jsonPath,
      Call.servicemanagementNewService jsonPath], ?_, by simp [Call.isNewService]⟩
    rw [newClient_servicemanagement_error lib projectID jsonPath w h1 h2 h3]
    show w3.calls = _
    rw [servicemanagement_calls lib jsonPath w2 h3, iam_calls lib jsonPath w1 h2,
      resource_calls lib jsonPath w h1]
    simp
  rcases h4 : cloudbilling.NewService lib jsonPath w3 with ⟨e | b, w4⟩
  · refine ⟨[Call.cloudresourcemanagerNewService jsonPath, Call.iamNewService jsonPath,
      Call.servicemanagementNewService jsonPath, Call.cloudbillingNewService jsonPath], ?_,
      by simp [Call.isNewService]⟩
    rw [newClient_billing_error lib projectID jsonPath w h1 h2 h3 h4]
    show w4.calls = _
    rw [billing_calls lib jsonPath w3 h4, servicemanagement_calls lib jsonPath w2 h3,
      iam_calls lib jsonPath w1 h2, resource_calls lib jsonPath w h1]
    simp
  have hc : ∀ (x : Except GoError dns.Service) (w5 : World σ),
      dns.NewService lib jsonPath w4 = (x, w5) →
      w5.calls = w.calls ++ [Call.cloudresourcemanagerNewService jsonPath,
        Call.iamNewService jsonPath, Call.servicemanagementNewService jsonPath,
        Call.cloudbillingNewService jsonPath, Call.dnsNewService jsonPath] := by
    intro x w5 h5
    rw [dns_calls lib jsonPath w4 h5, billing_calls lib jsonPath w3 h4,
      servicemanagement_calls lib jsonPath w2 h3, iam_calls lib jsonPath w1 h2,
      resource_calls lib jsonPath w h1]
    simp
  rcases h5 : dns.NewService lib jsonPath w4 with ⟨e | d, w5⟩
  · rw [newClient_dns_error lib projectID jsonPath w h1 h2 h3 h4 h5]
    exact ⟨_, hc _ _ h5, by simp [Call.isNewService]⟩
  · rw [newClient_all_ok lib projectID jsonPath w h1 h2 h3 h4 h5]
    exact ⟨_, hc _ _ h5, by simp [Call.isNewService]⟩

theorem main_new_error {x : Option GoogleCloudClient} {e : GoError} {w1 : World σ}
    (h : NewGoogleCloudClient lib cfg.projectID (lib.filepathJoin HOME cfg.jsonpath) w =
      ((x, some e), w1)) :
    main lib cfg HOME w =
      ⟨w1, configEcho cfg.projectID (lib.filepathJoin HOME cfg.jsonpath), [e.Error], 1⟩ := by
  cases x <;> simp [main, h, configEcho]

theorem main_new_nil {w1 : World σ}
    (h : NewGoogleCloudClient lib cfg.projectID (lib.filepathJoin HOME cfg.jsonpath) w =
      ((none, none), w1)) :
    main lib cfg HOME w =
      ⟨w1, configEcho cfg.projectID (lib.filepathJoin HOME cfg.jsonpath), [], 2⟩ := by
  simp [main, h, configEcho]

theorem main_list_error {c : GoogleCloudClient} {w1 w2 : World σ}
    {x : Option cloudresourcemanager.ListProjectsResponse} {e : GoError}
    (h1 : NewGoogleCloudClient lib cfg.projectID (lib.filepathJoin HOME cfg.jsonpath) w =
      ((some c, none), w1))
    (h2 : c.ListProjects lib w1 = ((x, some e), w2)) :
    main lib cfg HOME w =
      ⟨w2, configEcho cfg.projectID (lib.filepathJoin HOME cfg.jsonpath) ++ basePathLines c,
        [e.Error], 1⟩ := by
  cases x <;> simp [main, h1, h2, configEcho, basePathLines, String.append_assoc]

theorem main_list_nil {c : GoogleCloudClient} {w1 w2 : World σ}
    (h1 : NewGoogleCloudClient lib cfg.projectID (lib.filepathJoin HOME cfg.jsonpath) w =
      ((some c, none), w1))
    (h2 : c.ListProjects lib w1 = ((none, none), w2)) :
    main lib cfg HOME w =
      ⟨w2, configEcho cfg.projectID (lib.filepathJoin HOME cfg.jsonpath) ++ basePathLines c,
        [], 2⟩ := by
  simp [main, h1, h2, configEcho, basePathLines, String.append_assoc]

theorem main_get_error {c : GoogleCloudClient} {w1 w2 w3 : World σ}
    {resp : cloudresourcemanager.ListProjectsResponse}
    {x : Option cloudresourcemanager.Project} {e : GoError}
    (h1 : NewGoogleCloudClient lib cfg.projectID (lib.filepathJoin HOME cfg.jsonpath) w =
      ((some c, none), w1))
    (h2 : c.ListProjects lib w1 = ((some resp, none), w2))
    (h3 : c.GetProject lib cfg.projectID w2 = ((x, some e), w3)) :
    main lib cfg HOME w =
      ⟨w3, configEcho cfg.projectID (lib.filepathJoin HOME cfg.jsonpath) ++
        (basePathLines c ++ projectLines resp.Projects), [e.Error], 1⟩ := by
  cases x <;>
    simp [main, h1, h2, h3, configEcho, basePathLines, foldl_printfProject, String.append_assoc]

theorem main_get_nil {c : GoogleCloudClient} {w1 w2 w3 : World σ}
    {resp : cloudresourcemanager.ListProjectsResponse}
    (h1 : NewGoogleCloudClient lib cfg.projectID (lib.filepathJoin HOME cfg.jsonpath) w =
      ((some c, none), w1))
    (h2 : c.ListProjects lib w1 = ((some resp, none), w2))
    (h3 : c.GetProject lib cfg.projectID w2 = ((none, none), w3)) :
    main lib cfg HOME w =
      ⟨w3, configEcho cfg.projectID (lib.filepathJoin HOME cfg.jsonpath) ++
        (basePathLines c ++ projectLines resp.Projects), [], 2⟩ := by
  simp [main, h1, h2, h3, configEcho, basePathLines, foldl_printfProject, String.append_assoc]

theorem main_all_ok {c : GoogleCloudClient} {w1 w2 w3 : World σ}
    {resp : cloudresourcemanager.ListProjectsResponse} {resp1 : cloudresourcemanager.Project}
    (h1 : NewGoogleCloudClient lib cfg.projectID (lib.filepathJoin HOME cfg.jsonpath) w =
      ((some c, none), w1))
    (h2 : c.ListProjects lib w1 = ((some resp, none), w2))
    (h3 : c.GetProject lib cfg.projectID w2 = ((some resp1, none), w3)) :
    main lib cfg HOME w =
      ⟨w3, configEcho cfg.projectID (lib.filepathJoin HOME cfg.jsonpath) ++
        describedStdout c resp resp1, [], 0⟩ := by
  simp [main, h1, h2, h3, configEcho, basePathLines, describedStdout, foldl_printfProject,
    String.append_assoc]

theorem stdout_extends_projectLines {c : GoogleCloudClient} {w1 w2 : World σ}
    {resp : cloudresourcemanager.ListProjectsResponse}
    (h1 : NewGoogleCloudClient lib cfg.projectID (lib.filepathJoin HOME cfg.jsonpath) w =
      ((some c, none), w1))
    (h2 : c.ListProjects lib w1 = ((some resp, none), w2)) :
    ∃ rest, (main lib cfg HOME w).stdout =
      configEcho cfg.projectID (lib.filepathJoin HOME cfg.jsonpath) ++
        (basePathLines c ++ projectLines resp.Projects) ++ rest := by
  rcases h3 : c.GetProject lib cfg.projectID w2 with ⟨⟨x, err⟩, w3⟩
  cases err with
  | some e => exact ⟨"", by rw [main_get_error lib cfg HOME w h1 h2 h3]; simp⟩
  | none =>
    cases x with
    | none => exact ⟨"", by rw [main_get_nil lib cfg HOME w h1 h2 h3]; simp⟩
    | some resp1 =>
      exact ⟨fmt.Println (toString resp1.ProjectNumber), by
        rw [main_all_ok lib cfg HOME w h1 h2 h3]
        simp [describedStdout, String.append_assoc]⟩

theorem stdout_extends_basePathLines {c : GoogleCloudClient} {w1 : World σ}
    (h1 : NewGoogleCloudClient lib cfg.projectID (lib.filepathJoin HOME cfg.jsonpath) w =
      ((some c, none), w1)) :
    ∃ rest, (main lib cfg HOME w).stdout =
      configEcho cfg.projectID (lib.filepathJoin HOME cfg.jsonpath) ++ basePathLines c ++ rest := by
  rcases h2 : c.ListProjects lib w1 with ⟨⟨x, err⟩, w2⟩
  cases err with
  | some e => exact ⟨"", by rw [main_list_error lib cfg HOME w h1 h2]; simp⟩
  | none =>
    cases x with
    | none => exact ⟨"", by rw [main_list_nil lib cfg HOME w h1 h2]; simp⟩
    | some resp =>
      obtain ⟨rest, h⟩ := stdout_extends_projectLines lib cfg HOME w h1 h2
      exact ⟨projectLines resp.Projects ++ rest, by rw [h]; simp [String.append_assoc]⟩

theorem stdout_extends_configEcho :
    ∃ rest, (main lib cfg HOME w).stdout =
      configEcho cfg.projectID (lib.filepathJoin HOME cfg.jsonpath) ++ rest := by
  rcases h1 : NewGoogleCloudClient lib cfg.projectID (lib.filepathJoin HOME cfg.jsonpath) w with
    ⟨⟨x, err⟩, w1⟩
  cases err with
  | some e => exact ⟨"", by rw [main_new_error lib cfg HOME w h1]; simp⟩
  | none =>
    cases x with
    | none => exact ⟨"", by rw [main_new_nil lib cfg HOME w h1]; simp⟩
    | some c =>
      obtain ⟨rest, h⟩ := stdout_extends_basePathLines lib cfg HOME w h1
      exact ⟨basePathLines c ++ rest, by rw [h]; simp [String.append_assoc]⟩

/-- C8: the first of construction, `ListProjects` and `GetProject` to return an error
ends the run of `main`: the exit status is 1, the error is the one message handed to
`log.Fatal`, the world is left as that step left it (after a failed construction only
constructor calls have been made; after a failed list call no lookup is made), and
the standard output is an initial part of the standard output of every run with the
same configuration in which the steps before gave the same results, whatever
happens in that run at the failing step and after. -/
theorem main_stops_at_first_failure :
    (∀ x e w1,
        NewGoogleCloudClient lib cfg.projectID (lib.filepathJoin HOME cfg.jsonpath) w =
          ((x, some e), w1) →
        (main lib cfg HOME w).status = 1 ∧ (main lib cfg HOME w).fatal = [e.Error] ∧
        (main lib cfg HOME w).world = w1 ∧
        (∃ added, (main lib cfg HOME w).world.calls = w.calls ++ added ∧
          ∀ k ∈ added, k.isNewService = true) ∧
        (main lib cfg HOME w).stdout =
          configEcho cfg.projectID (lib.filepathJoin HOME cfg.jsonpath) ∧
        ∀ (τ : Type) (lib2 : Library τ) (v : World τ),
          lib2.filepathJoin HOME cfg.jsonpath = lib.filepathJoin HOME cfg.jsonpath →
          ∃ rest, (main lib2 cfg HOME v).stdout = (main lib cfg HOME w).stdout ++ rest) ∧
    (∀ c w1 x e w2,
        NewGoogleCloudClient lib cfg.projectID (lib.filepathJoin HOME cfg.jsonpath) w =
          ((some c, none), w1) →
        c.ListProjects lib w1 = ((x, some e), w2) →
        (main lib cfg HOME w).status = 1 ∧ (main lib cfg HOME w).fatal = [e.Error] ∧
        (main lib cfg HOME w).world = w2 ∧
        (main lib cfg HOME w).world.calls = w1.calls ++ [Call.projectsListDo c.Resource] ∧
        (main lib cfg HOME w).stdout =
          configEcho cfg.projectID (lib.filepathJoin HOME cfg.jsonpath) ++ basePathLines c ∧
        ∀ (τ : Type) (lib2 : Library τ) (v v1 : World τ),
          lib2.filepathJoin HOME cfg.jsonpath = lib.filepathJoin HOME cfg.jsonpath →
          NewGoogleCloudClient lib2 cfg.projectID (lib2.filepathJoin HOME cfg.jsonpath) v =
            ((some c, none), v1) →
          ∃ rest, (main lib2 cfg HOME v).stdout = (main lib cfg HOME w).stdout ++ rest) ∧
    (∀ c w1 resp w2 x e w3,
        NewGoogleCloudClient lib cfg.projectID (lib.filepathJoin HOME cfg.jsonpath) w =
          ((some c, none), w1) →
        c.ListProjects lib w1 = ((some resp, none), w2) →
        c.GetProject lib cfg.projectID w2 = ((x, some e), w3) →
        (main lib cfg HOME w).status = 1 ∧ (main lib cfg HOME w).fatal = [e.Error] ∧
        (main lib cfg HOME w).world = w3 ∧
        (main lib cfg HOME w).world.calls =
          w1.calls ++ [Call.projectsListDo c.Resource,
            Call.projectsGetDo c.Resource cfg.projectID] ∧
        (main lib cfg HOME w).stdout =
          configEcho cfg.projectID (lib.filepathJoin HOME cfg.jsonpath) ++
            (basePathLines c ++ projectLines resp.Projects) ∧
        ∀ (τ : Type) (lib2 : Library τ) (v v1 v2 : World τ),
          lib2.filepathJoin HOME cfg.jsonpath = lib.filepathJoin HOME cfg.jsonpath →
          NewGoogleCloudClient lib2 cfg.projectID (lib2.filepathJoin HOME cfg.jsonpath) v =
            ((some c, none), v1) →
          c.ListProjects lib2 v1 = ((some resp, none), v2) →
          ∃ rest, (main lib2 cfg HOME v).stdout = (main lib cfg HOME w).stdout ++ rest) := by
  refine ⟨?_, ?_, ?_⟩
  · intro x e w1 h1
    have hw := newClient_calls_are_constructors lib w cfg.projectID
      (lib.filepathJoin HOME cfg.jsonpath)
    rw [h1] at hw
    rw [main_new_error lib cfg HOME w h1]
    refine ⟨rfl, rfl, rfl, hw, rfl, ?_⟩
    intro τ lib2 v hj
    have h := stdout_extends_configEcho lib2 cfg HOME v
    rw [hj] at h
    exact h
  · intro c w1 x e w2 h1 h2
    have hw : w2.calls = w1.calls ++ [Call.projectsListDo c.Resource] := by
      have := listProjects_eq lib c w1
      rw [h2] at this
      rw [(Prod.mk.inj this).2]
    rw [main_list_error lib cfg HOME w h1 h2]
    refine ⟨rfl, rfl, rfl, hw, rfl, ?_⟩
    intro τ lib2 v v1 hj hn
    have h := stdout_extends_basePathLines lib2 cfg HOME v hn
    rw [hj] at h
    exact h
  · intro c w1 resp w2 x e w3 h1 h2 h3
    have hw2 : w2.calls = w1.calls ++ [Call.projectsListDo c.Resource] := by
      have := listProjects_eq lib c w1
      rw [h2] at this
      rw [(Prod.mk.inj this).2]
    have hw3 : w3.calls = w2.calls ++ [Call.projectsGetDo c.Resource cfg.projectID] := by
      have := getProject_eq lib c w2 cfg.projectID
      rw [h3] at this
      rw [(Prod.mk.inj this).2]
    rw [main_get_error lib cfg HOME w h1 h2 h3]
    refine ⟨rfl, rfl, rfl, by show w3.calls = _; rw [hw3, hw2]; simp, rfl, ?_⟩
    intro τ lib2 v v1 v2 hj hn hl
    have h := stdout_extends_projectLines lib2 cfg HOME v hn hl
    rw [hj] at h
    exact h

/-- C9 as amended: in every run of `main` in which construction, `ListProjects` and
`GetProject` all succeed, the standard output is the text
`Project ID: <project-id> jsonPath: <credential path>` without a line break, followed
by the five base paths (resource manager, IAM, service management, billing, DNS),
one line per project of the enumerated collection in its order, and the project
number of the looked-up project, and nothing else; the run ends with status 0 and
nothing reported. -/
theorem main_stdout_on_success (c : GoogleCloudClient) (w1 w2 w3 : World σ)
    (resp : cloudresourcemanager.ListProjectsResponse) (resp1 : cloudresourcemanager.Project)
    (h1 : NewGoogleCloudClient lib cfg.projectID (lib.filepathJoin HOME cfg.jsonpath) w =
      ((some c, none), w1))
    (h2 : c.ListProjects lib w1 = ((some resp, none), w2))
    (h3 : c.GetProject lib cfg.projectID w2 = ((some resp1, none), w3)) :
    (main lib cfg HOME w).stdout =
        "Project ID: " ++ cfg.projectID ++ " jsonPath: " ++ lib.filepathJoin HOME cfg.jsonpath ++
          describedStdout c resp resp1 ∧
      (main lib cfg HOME w).status = 0 ∧ (main lib cfg HOME w).fatal = [] := by
  rw [main_all_ok lib cfg HOME w h1 h2 h3]
  exact ⟨rfl, rfl, rfl⟩

set_option maxRecDepth 100000 in
/-- C9 as stated fails: in the healthy scenario with `--project-id alpha-123` and
`--jsonKey key.json` under `HOME=/home/dev` all three steps succeed, and the standard
output begins with `Project ID: alpha-123 jsonPath: /home/dev/key.json`, which is neither
a base path, nor a project line, nor the project number; so it is not the described
text. -/
theorem main_stdout_not_as_described :
    NewGoogleCloudClient healthy.library "alpha-123" "/home/dev/key.json" World.start =
        ((some alphaClient, none),
          ⟨5, [Call.cloudresourcemanagerNewService "/home/dev/key.json",
            Call.iamNewService "/home/dev/key.json",
            Call.servicemanagementNewService "/home/dev/key.json",
            Call.cloudbillingNewService "/home/dev/key.json",
            Call.dnsNewService "/home/dev/key.json"]⟩) ∧
      (main healthy.library ⟨"alpha-123", "key.json"⟩ "/home/dev" World.start).status = 0 ∧
      (main healthy.library ⟨"alpha-123", "key.json"⟩ "/home/dev" World.start).stdout =
        "Project ID: alpha-123 jsonPath: /home/dev/key.json" ++
          "https://cloudresourcemanager.googleapis.com/\n" ++
          "https://iam.googleapis.com/\n" ++
          "https://servicemanagement.googleapis.com/\n" ++
          "https://cloudbilling.googleapis.com/\n" ++
          "https://dns.googleapis.com/dns/v1/projects/\n" ++
          "Project Name: Alpha\tProjectID: alpha-123\tProject Number: 123456\r\n" ++
          "123456\n" ∧
      describedStdout alphaClient ⟨[alpha], ""⟩ alpha =
        "https://cloudresourcemanager.googleapis.com/\n" ++
          "https://iam.googleapis.com/\n" ++
          "https://servicemanagement.googleapis.com/\n" ++
          "https://cloudbilling.googleapis.com/\n" ++
          "https://dns.googleapis.com/dns/v1/projects/\n" ++
          "Project Name: Alpha\tProjectID: alpha-123\tProject Number: 123456\r\n" ++
          "123456\n" ∧
      (main healthy.library ⟨"alpha-123", "key.json"⟩ "/home/dev" World.start).stdout ≠
        describedStdout alphaClient ⟨[alpha], ""⟩ alpha := by
  refine ⟨rfl, rfl, rfl, rfl, ?_⟩
  decide

set_option maxRecDepth 100000 in
/-- With a credential file that does not exist the run of `main` stops at
construction, and with a refused list call it stops at `ListProjects`, as
`main_stops_at_first_failure` says. -/
theorem main_stops_at_first_failure_witness :
    (NewGoogleCloudClient missingKey.library "alpha-123" "/home/dev/nokey.json" World.start =
        ((none, some ⟨"Error with Cloud Resource Manager Service: " ++
            "cannot read credentials file /home/dev/nokey.json"⟩),
          ⟨1, [Call.cloudresourcemanagerNewService "/home/dev/nokey.json"]⟩) ∧
      (main missingKey.library ⟨"alpha-123", "nokey.json"⟩ "/home/dev" World.start).status = 1 ∧
      (main missingKey.library ⟨"alpha-123", "nokey.json"⟩ "/home/dev" World.start).world =
        ⟨1, [Call.cloudresourcemanagerNewService "/home/dev/nokey.json"]⟩) ∧
      (alphaClient.ListProjects listRefused.library
          (NewGoogleCloudClient listRefused.library "alpha-123" "/home/dev/key.json"
            World.start).2 =
        ((none, some ⟨"googleapi: Error 403: forbidden"⟩),
          ⟨6, [Call.cloudresourcemanagerNewService "/home/dev/key.json",
            Call.iamNewService "/home/dev/key.json",
            Call.servicemanagementNewService "/home/dev/key.json",
            Call.cloudbillingNewService "/home/dev/key.json",
            Call.dnsNewService "/home/dev/key.json",
            Call.projectsListDo alphaClient.Resource]⟩) ∧
      (main listRefused.library ⟨"alpha-123", "key.json"⟩ "/home/dev" World.start).fatal =
        ["googleapi: Error 403: forbidden"]) :=
  ⟨⟨rfl,
    ((main_stops_at_first_failure missingKey.library ⟨"alpha-123", "nokey.json"⟩ "/home/dev"
      World.start).1 none _ ⟨1, _⟩ rfl).1,
    ((main_stops_at_first_failure missingKey.library ⟨"alpha-123", "nokey.json"⟩ "/home/dev"
      World.start).1 none _ ⟨1, _⟩ rfl).2.2.1⟩,
    rfl,
    ((main_stops_at_first_failure listRefused.library ⟨"alpha-123", "key.json"⟩ "/home/dev"
      World.start).2.1 alphaClient _ none ⟨"googleapi: Error 403: forbidden"⟩ ⟨6, _⟩
      rfl rfl).2.1⟩

set_option maxRecDepth 100000 in
/-- The healthy scenario satisfies the hypotheses of `main_stdout_on_success`. -/
theorem main_stdout_on_success_witness :
    alphaClient.GetProject healthy.library "alpha-123"
        (alphaClient.ListProjects healthy.library
          (NewGoogleCloudClient healthy.library "alpha-123" "/home/dev/key.json"
            World.start).2).2 =
        ((some alpha, none),
          ⟨7, [Call.cloudresourcemanagerNewService "/home/dev/key.json",
            Call.iamNewService "/home/dev/key.json",
            Call.servicemanagementNewService "/home/dev/key.json",
            Call.cloudbillingNewService "/home/dev/key.json",
            Call.dnsNewService "/home/dev/key.json",
            Call.projectsListDo alphaClient.Resource,
            Call.projectsGetDo alphaClient.Resource "alpha-123"]⟩) ∧
      (main healthy.library ⟨"alpha-123", "key.json"⟩ "/home/dev" World.start).stdout =
        "Project ID: " ++ "alpha-123" ++ " jsonPath: " ++ "/home/dev/key.json" ++
          describedStdout alphaClient ⟨[alpha], ""⟩ alpha :=
  ⟨rfl,
    (main_stdout_on_success healthy.library ⟨"alpha-123", "key.json"⟩ "/home/dev" World.start
      alphaClient ⟨5, _⟩ ⟨6, _⟩ ⟨7, _⟩ ⟨[alpha], ""⟩ alpha rfl rfl rfl).1⟩

end program

end GcpClient
